import Mathlib

/-!
Verification development for the FLOW-SEU-G repository.

The repository has two independent Python scripts:

* `workplace/final（只有方法）/获取结果代码/plot_reward.py` — a batch plotting
  utility that reads a `progress.csv` training log from each of a hard-coded
  list of directories and saves reward-curve PNG files next to the log.
* `workplace/rl_env/cavandlight_shixiong.py` — an experiment-configuration
  script that assembles a vehicle population, a two-role multi-agent policy
  scheme (cav / tl) and hands the configuration to an external RLlib
  `run_experiments` call.

This file gives a shallow embedding of both scripts.  The file system is
modelled as a partial map from paths to parsed CSV tables; `fig.savefig`
calls are modelled by recording the written file path; an uncaught Python
exception is modelled by an error value that aborts the remaining
computation while keeping the writes already performed.
-/

/-! ## String helpers modelling the Python operators `in` and `str.startswith` -/

/-- Boolean test that `pat` is a prefix of `l` (character lists). -/
def listIsPre : List Char → List Char → Bool
  | [], _ => true
  | _ :: _, [] => false
  | a :: pat, b :: l => a == b && listIsPre pat l

/-- Boolean test that `pat` occurs as a contiguous substring of `l`:
this is the semantics of the Python expression `pat in s` on strings. -/
def listHasSub (pat : List Char) : List Char → Bool
  | [] => pat.isEmpty
  | c :: rest => listIsPre pat (c :: rest) || listHasSub pat rest

/-- Substring containment `pat in s` of Python, on strings. -/
def pyIn (pat s : String) : Bool := listHasSub pat.data s.data

/-- The Python method `s.startswith(pat)` on strings. -/
def pyStartswith (s pat : String) : Bool := listIsPre pat.data s.data

/-! ## Data model of the plotting component (`plot_reward.py`) -/

/-- A parsed CSV table: named columns with their cell strings.
Mirrors a `pandas.DataFrame` loaded by `pd.read_csv`. -/
structure Table where
  cols : List (String × List String)
deriving DecidableEq

/-- Column selection `df[name]`: the first column with that name,
or `none` when the column is absent (pandas raises `KeyError`). -/
def Table.getCol (df : Table) (name : String) : Option (List String) :=
  (df.cols.find? fun c => c.1 == name).map Prod.snd

/-- The file system visible to the plotting script: a path either holds a
parsable CSV (`some` table) or reading it fails (`none`). -/
def FS : Type := String → Option Table

/-- An uncaught Python exception raised while plotting. -/
inductive PlotErr where
  | missingFile (path : String)
  | missingColumn (col : String)
deriving DecidableEq

/-- Model of `pd.read_csv(path)`: error when the file is missing or unreadable. -/
def readCsv (fs : FS) (path : String) : Except PlotErr Table :=
  match fs path with
  | some df => Except.ok df
  | none => Except.error (PlotErr.missingFile path)

/-- Column selection `df[name]` raising `KeyError` when absent. -/
def getColE (df : Table) (name : String) : Except PlotErr (List String) :=
  match df.getCol name with
  | some c => Except.ok c
  | none => Except.error (PlotErr.missingColumn name)

/-- The column reads done by `PlotbothRew_Inter` (and by the first figure of
`PlotCav_LigthtRew_Inter`), in source order:
`df["episode_reward_max"], df["episode_reward_min"], df["episode_reward_mean"]`
then `df["training_iteration"]`. -/
def bothCols (df : Table) : Except PlotErr Unit := do
  let _ ← getColE df "episode_reward_max"
  let _ ← getColE df "episode_reward_min"
  let _ ← getColE df "episode_reward_mean"
  let _ ← getColE df "training_iteration"
  pure ()

/-- The column reads for the cav-policy figure of `PlotCav_LigthtRew_Inter`,
in source order. -/
def cavCols (df : Table) : Except PlotErr Unit := do
  let _ ← getColE df "policy_reward_max/cav"
  let _ ← getColE df "policy_reward_min/cav"
  let _ ← getColE df "policy_reward_mean/cav"
  let _ ← getColE df "training_iteration"
  pure ()

/-- The column reads for the traffic-light figure of
`PlotCav_LigthtRew_Inter`, in source order. -/
def tlCols (df : Table) : Except PlotErr Unit := do
  let _ ← getColE df "policy_reward_max/tl"
  let _ ← getColE df "policy_reward_min/tl"
  let _ ← getColE df "policy_reward_mean/tl"
  let _ ← getColE df "training_iteration"
  pure ()

/-- The literal `EXP_TAG = "fixed_time_ppo"` (same in both plotting functions). -/
def EXP_TAG : String := "fixed_time_ppo"

/-- Model of `PlotbothRew_Inter(PATH)`: read `PATH/progress.csv`, select the four
episode-reward columns, plot, and save one figure to
`PATH + "/" + "all_" + EXP_TAG + ".png"`.  Returns the list of file paths
written (in order) and the uncaught exception, if any. -/
def PlotbothRew_Inter (fs : FS) (PATH : String) : List String × Option PlotErr :=
  let first_PATH := PATH
  let FILE_PATH := first_PATH ++ "/" ++ "progress.csv"
  match readCsv fs FILE_PATH with
  | Except.error e => ([], some e)
  | Except.ok df =>
    match bothCols df with
    | Except.error e => ([], some e)
    | Except.ok _ => ([first_PATH ++ "/" ++ "all_" ++ EXP_TAG ++ ".png"], none)

/-- Model of `PlotCav_LigthtRew_Inter(PATH)`: read `PATH/progress.csv` and save three
figures in order — `all_`, `icv_` and `tl_` concatenated with `EXP_TAG` and
`.png` — where the column reads of each figure precede its save, so a failure in
the reads of a later figure keeps the earlier writes. -/
def PlotCav_LigthtRew_Inter (fs : FS) (PATH : String) : List String × Option PlotErr :=
  let first_PATH := PATH
  let FILE_PATH := first_PATH ++ "/" ++ "progress.csv"
  match readCsv fs FILE_PATH with
  | Except.error e => ([], some e)
  | Except.ok df =>
    match bothCols df with
    | Except.error e => ([], some e)
    | Except.ok _ =>
      let w1 := first_PATH ++ "/" ++ "all_" ++ EXP_TAG ++ ".png"
      match cavCols df with
      | Except.error e => ([w1], some e)
      | Except.ok _ =>
        let w2 := first_PATH ++ "/" ++ "icv_" ++ EXP_TAG ++ ".png"
        match tlCols df with
        | Except.error e => ([w1, w2], some e)
        | Except.ok _ =>
          ([w1, w2, first_PATH ++ "/" ++ "tl_" ++ EXP_TAG ++ ".png"], none)

/-- The hard-coded absolute directory root prepended by `PlotAll`:
`dataPath = "/home/g/software/pycharm/projects/flow-SEU/workplace/final/" + PATH`. -/
def pathRoot : String := "/home/g/software/pycharm/projects/flow-SEU/workplace/final/"

/-- Model of `PlotAll(PATH)`: build `dataPath` from the hard-coded root, then branch on
`"PO" in dataPath`: the multi-policy branch runs `PlotbothRew_Inter` followed
by `PlotCav_LigthtRew_Inter` (the second only if the first did not raise),
otherwise only `PlotbothRew_Inter` runs. -/
def PlotAll (fs : FS) (PATH : String) : List String × Option PlotErr :=
  let dataPath := pathRoot ++ PATH
  if pyIn "PO" dataPath then
    match PlotbothRew_Inter fs dataPath with
    | (w1, some e) => (w1, some e)
    | (w1, none) =>
      match PlotCav_LigthtRew_Inter fs dataPath with
      | (w2, e2) => (w1 ++ w2, e2)
  else
    PlotbothRew_Inter fs dataPath

/-- The hard-coded batch list `PATHS` of 12 relative directory names. -/
def PATHS : List String :=
  ["1*1路网/Co_PPO", "1*1路网/fixedtime_cav", "1*1路网/In_PPO", "1*1路网/RL_HV",
   "1*6路网/Co_PPO", "1*6路网/fixedtime_cav", "1*6路网/In_PPO", "1*6路网/RL_HV",
   "3*4路网/Co_PPO", "3*4路网/fixedtime_cav", "3*4路网/In_PPO", "3*4路网/RL_HV"]

/-- The module-level `for PATH in PATHS: PlotAll(PATH)` loop: each directory
is fully handled by one `PlotAll` call before the next starts, and an
uncaught exception terminates the whole loop, keeping the writes performed
so far. -/
def runBatch (fs : FS) : List String → List String × Option PlotErr
  | [] => ([], none)
  | p :: rest =>
    match PlotAll fs p with
    | (w, some e) => (w, some e)
    | (w, none) =>
      match runBatch fs rest with
      | (w', e') => (w ++ w', e')

/-- The whole plotting script: the batch loop over the hard-coded `PATHS`. -/
def mainBatch (fs : FS) : List String × Option PlotErr := runBatch fs PATHS

/-- Concrete log table of the end-to-end scenario: exactly the four columns
consumed by `PlotbothRew_Inter`, with 3 rows (iterations 1,2,3 and mean
rewards 0.1,0.2,0.3). -/
def specTable : Table :=
  ⟨[("training_iteration", ["1", "2", "3"]),
    ("episode_reward_mean", ["0.1", "0.2", "0.3"]),
    ("episode_reward_min", ["0.05", "0.15", "0.25"]),
    ("episode_reward_max", ["0.15", "0.25", "0.35"])]⟩

/-- Concrete log table holding every column any plotting function reads:
the four episode-reward columns plus the per-policy cav and tl columns. -/
def fullTable : Table :=
  ⟨[("training_iteration", ["1", "2", "3"]),
    ("episode_reward_mean", ["0.1", "0.2", "0.3"]),
    ("episode_reward_min", ["0.05", "0.15", "0.25"]),
    ("episode_reward_max", ["0.15", "0.25", "0.35"]),
    ("policy_reward_mean/cav", ["0.1", "0.2", "0.3"]),
    ("policy_reward_min/cav", ["0.05", "0.15", "0.25"]),
    ("policy_reward_max/cav", ["0.15", "0.25", "0.35"]),
    ("policy_reward_mean/tl", ["0.1", "0.2", "0.3"]),
    ("policy_reward_min/tl", ["0.05", "0.15", "0.25"]),
    ("policy_reward_max/tl", ["0.15", "0.25", "0.35"])]⟩

instance {ε α : Type} [DecidableEq ε] [DecidableEq α] : DecidableEq (Except ε α) := fun a b =>
  match a, b with
  | Except.ok x, Except.ok y => decidable_of_iff (x = y) (by simp)
  | Except.error x, Except.error y => decidable_of_iff (x = y) (by simp)
  | Except.ok _, Except.error _ => isFalse (by simp)
  | Except.error _, Except.ok _ => isFalse (by simp)

/-! ## Data model of the experiment configurator (`cavandlight_shixiong.py`) -/

/-- Source constant `HORIZON = 500`. -/
def HORIZON : Nat := 500

/-- Source constant `num_cars_left = 1`. -/
def num_cars_left : Int := 1

/-- Source constant `num_cars_right = 1`. -/
def num_cars_right : Int := 1

/-- Source constant `num_cars_top = 1`. -/
def num_cars_top : Int := 1

/-- Source constant `num_cars_bot = 1`. -/
def num_cars_bot : Int := 1

/-- Source constant `n_columns = 4`. -/
def n_columns : Int := 4

/-- Source constant `n_rows = 3`. -/
def n_rows : Int := 3

/-- The grid-geometry formula of the source line
`tot_cars = (num_cars_left + num_cars_right) * n_columns
          + (num_cars_top + num_cars_bot) * n_rows`,
parameterized by the six grid constants it reads. -/
def tot_cars_formula (ncl ncr nct ncb ncols nrows : Int) : Int :=
  (ncl + ncr) * ncols + (nct + ncb) * nrows

/-- Value of `tot_cars` at the module-level grid constants. -/
def tot_cars : Int :=
  tot_cars_formula num_cars_left num_cars_right num_cars_top num_cars_bot n_columns n_rows

/-- Acceleration controllers that appear in the vehicle population; only the
`cav` entry sets one (`RLController`, the learning-controlled role). -/
inductive AccController where
  | RLController
deriving DecidableEq

/-- One `vehs.add(...)` call: the identifier, the optional learning
acceleration controller, and the vehicle count. -/
structure VehicleTypeRecord where
  veh_id : String
  acceleration_controller : Option AccController
  num_vehicles : Int
deriving DecidableEq

/-- The two `vehs.add` calls, parameterized by the total car count they read:
`human` with `num_vehicles=tot_cars-2` and no RL controller, then `cav` with
`num_vehicles=2` and `acceleration_controller=(RLController,{})`. -/
def vehsOf (tot : Int) : List VehicleTypeRecord :=
  [{ veh_id := "human", acceleration_controller := none, num_vehicles := tot - 2 },
   { veh_id := "cav", acceleration_controller := some AccController.RLController,
     num_vehicles := 2 }]

/-- The module-level vehicle population `vehs`. -/
def vehs : List VehicleTypeRecord := vehsOf tot_cars

/-- A vehicle entry is learning-controlled when its acceleration controller
is the `RLController`. -/
def isLearning (v : VehicleTypeRecord) : Bool :=
  v.acceleration_controller == some AccController.RLController

/-- Total vehicle count over the entries selected by `p`. -/
def countVeh (l : List VehicleTypeRecord) (p : VehicleTypeRecord → Bool) : Int :=
  (l.filter p).foldl (fun a v => a + v.num_vehicles) 0

/-- The per-role probe spaces read from `test_env = create_env()` in
`setup_exps`; the space and action types are opaque here. -/
structure ProbeEnv (O A : Type) where
  observation_space_tl : O
  action_space_tl : A
  observation_space_av : O
  action_space_av : A

/-- One policy definition of `POLICY_GRAPHS`: the policy class and the
observation/action space pair bound to it. -/
structure PolicyDef (O A : Type) where
  policy_cls : String
  obs_space : O
  act_space : A

/-- The `multiagent` part of the trainer configuration assembled by
`setup_exps`. -/
structure MultiagentConfig (O A : Type) where
  policies : List (String × PolicyDef O A)
  policies_to_train : List String
  policy_mapping_fn : String → String

/-- The registered `POLICY_MAPPING_FN` lambda, returning
the string cav when the identifier starts with the literal cav,
else the string tl. -/
def POLICY_MAPPING_FN (agent_id : String) : String :=
  if pyStartswith agent_id "cav" then "cav" else "tl"

/-- The multi-agent configuration built by `setup_exps` from the probe
environment: `POLICY_GRAPHS` with keys `cav` (bound to the av spaces) and
`tl` (bound to the tl spaces), `POLICY_TO_TRAIN` listing cav and tl, and the
mapping lambda. -/
def setup_exps_multiagent {O A : Type} (test_env : ProbeEnv O A) : MultiagentConfig O A :=
  { policies :=
      [("cav", { policy_cls := "PPOTFPolicy", obs_space := test_env.observation_space_av,
                 act_space := test_env.action_space_av }),
       ("tl", { policy_cls := "PPOTFPolicy", obs_space := test_env.observation_space_tl,
                act_space := test_env.action_space_tl })],
    policies_to_train := ["cav", "tl"],
    policy_mapping_fn := POLICY_MAPPING_FN }

/-- The trial dictionary handed to `run_experiments`, keeping the fields the
launcher reads besides the opaque `config`: the algorithm name, the gym
environment name, the checkpoint cadence, the failure tolerance and the
stopping criterion `stop = {"training_iteration": 1000}`. -/
structure ExperimentSpec where
  run : String
  env : String
  checkpoint_freq : Nat
  checkpoint_at_end : Bool
  max_failures : Nat
  stop_training_iteration : Nat
deriving DecidableEq

/-- The literal trial dictionary of the `run_experiments` call, given the
`alg_run` and `gym_name` values returned by `setup_exps`. -/
def experimentSpec (alg_run gym_name : String) : ExperimentSpec :=
  { run := alg_run, env := gym_name, checkpoint_freq := 20, checkpoint_at_end := true,
    max_failures := 999, stop_training_iteration := 1000 }

/-! ## Helper lemmas -/

theorem data_of_append (s t : String) : (s ++ t).data = s.data ++ t.data := by
  cases s; cases t; rfl

theorem listHasSub_PO_append {l1 : List Char} (l2 : List Char) (h : 'P' ∉ l1) :
    listHasSub ['P', 'O'] (l1 ++ l2) = listHasSub ['P', 'O'] l2 := by
  induction l1 with
  | nil => rfl
  | cons a l1 ih =>
    have ha : a ≠ 'P' := fun he => h (by simp [he])
    have h1 : 'P' ∉ l1 := fun hm => h (List.mem_cons_of_mem _ hm)
    have hb : ('P' == a) = false := beq_eq_false_iff_ne.mpr (Ne.symm ha)
    simp [listHasSub, listIsPre, hb, ih h1]

theorem plotboth_ok (fs : FS) (PATH : String) (df : Table)
    (hfile : fs (PATH ++ "/" ++ "progress.csv") = some df)
    (hboth : bothCols df = Except.ok ()) :
    PlotbothRew_Inter fs PATH = ([PATH ++ "/" ++ "all_" ++ EXP_TAG ++ ".png"], none) := by
  simp [PlotbothRew_Inter, readCsv, hfile, hboth]

theorem plotcav_ok (fs : FS) (PATH : String) (df : Table)
    (hfile : fs (PATH ++ "/" ++ "progress.csv") = some df)
    (hboth : bothCols df = Except.ok ()) (hcav : cavCols df = Except.ok ())
    (htl : tlCols df = Except.ok ()) :
    PlotCav_LigthtRew_Inter fs PATH =
      ([PATH ++ "/" ++ "all_" ++ EXP_TAG ++ ".png",
        PATH ++ "/" ++ "icv_" ++ EXP_TAG ++ ".png",
        PATH ++ "/" ++ "tl_" ++ EXP_TAG ++ ".png"], none) := by
  simp [PlotCav_LigthtRew_Inter, readCsv, hfile, hboth, hcav, htl]

theorem plotall_po_writes (fs : FS) (PATH : String) (df : Table)
    (hPO : pyIn "PO" (pathRoot ++ PATH) = true)
    (hfile : fs (pathRoot ++ PATH ++ "/" ++ "progress.csv") = some df)
    (hboth : bothCols df = Except.ok ()) (hcav : cavCols df = Except.ok ())
    (htl : tlCols df = Except.ok ()) :
    PlotAll fs PATH =
      ([pathRoot ++ PATH ++ "/" ++ "all_" ++ EXP_TAG ++ ".png",
        pathRoot ++ PATH ++ "/" ++ "all_" ++ EXP_TAG ++ ".png",
        pathRoot ++ PATH ++ "/" ++ "icv_" ++ EXP_TAG ++ ".png",
        pathRoot ++ PATH ++ "/" ++ "tl_" ++ EXP_TAG ++ ".png"], none) := by
  simp [PlotAll, hPO, plotboth_ok fs (pathRoot ++ PATH) df hfile hboth,
    plotcav_ok fs (pathRoot ++ PATH) df hfile hboth hcav htl]

theorem write_name_ne (d a b : String)
    (hne : ("/" ++ a ++ EXP_TAG ++ ".png").data ≠ ("/" ++ b ++ EXP_TAG ++ ".png").data) :
    d ++ "/" ++ a ++ EXP_TAG ++ ".png" ≠ d ++ "/" ++ b ++ EXP_TAG ++ ".png" := by
  intro he
  apply hne
  have hd := congrArg String.data he
  simp only [data_of_append, List.append_assoc] at hd
  have h2 := List.append_cancel_left hd
  simp only [data_of_append, List.append_assoc]
  exact h2

theorem dedup_two_one_one {α : Type} [DecidableEq α] {w x y : α}
    (hwx : w ≠ x) (hwy : w ≠ y) (hxy : x ≠ y) :
    ([w, w, x, y] : List α).dedup = [w, x, y] := by
  rw [List.dedup_cons_of_mem (by simp), List.dedup_cons_of_not_mem (by simp [hwx, hwy]),
    List.dedup_cons_of_not_mem (by simp [hxy]), List.dedup_cons_of_not_mem (by simp),
    List.dedup_nil]

/-! ## Theorems -/

/-- C1: the policy-mapping function registered by `setup_exps` is total over
strings, returns the `cav` role exactly when the agent identifier starts
with the literal `"cav"`, and routes every other identifier to the `tl`
role without signalling an error. -/
theorem policy_mapping_fn_spec (agent_id : String) :
    (POLICY_MAPPING_FN agent_id = "cav" ↔ pyStartswith agent_id "cav" = true) ∧
    (pyStartswith agent_id "cav" = false → POLICY_MAPPING_FN agent_id = "tl") ∧
    (POLICY_MAPPING_FN agent_id = "cav" ∨ POLICY_MAPPING_FN agent_id = "tl") := by
  unfold POLICY_MAPPING_FN
  cases h : pyStartswith agent_id "cav" <;> simp [h]

/-- C1 witness: `"cav_3"` maps to the cav policy and `"tl_main"` to the tl
policy. -/
theorem policy_mapping_fn_spec_witness :
    POLICY_MAPPING_FN "cav_3" = "cav" ∧ POLICY_MAPPING_FN "tl_main" = "tl" :=
  ⟨(policy_mapping_fn_spec "cav_3").1.mpr (by decide),
   (policy_mapping_fn_spec "tl_main").2.1 (by decide)⟩

/-- C3: for any grid constants, the non-learning `human` count plus the
learning `cav` count of the vehicle population equals the total derived by
the grid-geometry formula, the learning count is 2 independently of the
grid dimensions, and the same holds for the module-level `vehs`/`tot_cars`. -/
theorem vehicle_population_invariant (ncl ncr nct ncb ncols nrows : Int) :
    countVeh (vehsOf (tot_cars_formula ncl ncr nct ncb ncols nrows))
        (fun v => !(isLearning v)) +
      countVeh (vehsOf (tot_cars_formula ncl ncr nct ncb ncols nrows)) isLearning =
      tot_cars_formula ncl ncr nct ncb ncols nrows ∧
    countVeh (vehsOf (tot_cars_formula ncl ncr nct ncb ncols nrows)) isLearning = 2 ∧
    countVeh vehs (fun v => !(isLearning v)) + countVeh vehs isLearning = tot_cars := by
  refine ⟨?_, ?_, ?_⟩ <;>
    simp [countVeh, vehsOf, isLearning, vehs, List.filter, List.foldl]

/-- C3 witness: the invariant at the source grid constants
(1,1,1,1 cars, 4 columns, 3 rows). -/
theorem vehicle_population_invariant_witness :
    countVeh (vehsOf (tot_cars_formula 1 1 1 1 4 3)) (fun v => !(isLearning v)) +
      countVeh (vehsOf (tot_cars_formula 1 1 1 1 4 3)) isLearning =
      tot_cars_formula 1 1 1 1 4 3 ∧
    countVeh (vehsOf (tot_cars_formula 1 1 1 1 4 3)) isLearning = 2 ∧
    countVeh vehs (fun v => !(isLearning v)) + countVeh vehs isLearning = tot_cars :=
  vehicle_population_invariant 1 1 1 1 4 3

/-- C6: the trial dictionary handed to `run_experiments` stops at a
1000-iteration ceiling, checkpoints every 20 iterations and at the end, and
delegates a tolerance of up to 999 failures to the external launcher. -/
theorem experiment_launch_criteria (alg_run gym_name : String) :
    (experimentSpec alg_run gym_name).stop_training_iteration = 1000 ∧
    (experimentSpec alg_run gym_name).checkpoint_freq = 20 ∧
    (experimentSpec alg_run gym_name).checkpoint_at_end = true ∧
    (experimentSpec alg_run gym_name).max_failures = 999 :=
  ⟨rfl, rfl, rfl, rfl⟩

/-- C6 witness: the launch criteria at the concrete `alg_run = "PPO"`. -/
theorem experiment_launch_criteria_witness :
    (experimentSpec "PPO" "MultiEnv-v0").stop_training_iteration = 1000 ∧
    (experimentSpec "PPO" "MultiEnv-v0").checkpoint_freq = 20 ∧
    (experimentSpec "PPO" "MultiEnv-v0").checkpoint_at_end = true ∧
    (experimentSpec "PPO" "MultiEnv-v0").max_failures = 999 :=
  experiment_launch_criteria "PPO" "MultiEnv-v0"

/-- C7: `setup_exps` builds exactly the two policy definitions keyed `cav`
and `tl`, binding `cav` to the av-role spaces of the probe environment and `tl`
to its tl-role spaces, and lists exactly those two keys as trainable. -/
theorem setup_exps_policies {O A : Type} (test_env : ProbeEnv O A) :
    (setup_exps_multiagent test_env).policies =
      [("cav", { policy_cls := "PPOTFPolicy", obs_space := test_env.observation_space_av,
                 act_space := test_env.action_space_av }),
       ("tl", { policy_cls := "PPOTFPolicy", obs_space := test_env.observation_space_tl,
                act_space := test_env.action_space_tl })] ∧
    (setup_exps_multiagent test_env).policies.map Prod.fst = ["cav", "tl"] ∧
    (setup_exps_multiagent test_env).policies_to_train = ["cav", "tl"] :=
  ⟨rfl, rfl, rfl⟩

/-- C7 witness: the policy layout at a concrete probe environment. -/
theorem setup_exps_policies_witness :
    (setup_exps_multiagent (⟨0, 1, 2, 3⟩ : ProbeEnv Nat Nat)).policies =
      [("cav", { policy_cls := "PPOTFPolicy", obs_space := 2, act_space := 3 }),
       ("tl", { policy_cls := "PPOTFPolicy", obs_space := 0, act_space := 1 })] ∧
    (setup_exps_multiagent (⟨0, 1, 2, 3⟩ : ProbeEnv Nat Nat)).policies.map Prod.fst =
      ["cav", "tl"] ∧
    (setup_exps_multiagent (⟨0, 1, 2, 3⟩ : ProbeEnv Nat Nat)).policies_to_train =
      ["cav", "tl"] :=
  setup_exps_policies (⟨0, 1, 2, 3⟩ : ProbeEnv Nat Nat)

/-- C2: with a fully-populated log in place, a `PlotAll` directory whose data
path contains the multi-policy marker yields exactly three distinctly named
images (`all_`, `icv_`, `tl_` each with the fixed tag, next to the log), and
any other directory yields exactly the single `all_` image. -/
theorem plotall_output_files (fs : FS) (PATH : String) (df : Table)
    (hfile : fs (pathRoot ++ PATH ++ "/" ++ "progress.csv") = some df)
    (hboth : bothCols df = Except.ok ()) (hcav : cavCols df = Except.ok ())
    (htl : tlCols df = Except.ok ()) :
    (pyIn "PO" (pathRoot ++ PATH) = true →
      (PlotAll fs PATH).1.dedup =
        [pathRoot ++ PATH ++ "/" ++ "all_" ++ EXP_TAG ++ ".png",
         pathRoot ++ PATH ++ "/" ++ "icv_" ++ EXP_TAG ++ ".png",
         pathRoot ++ PATH ++ "/" ++ "tl_" ++ EXP_TAG ++ ".png"] ∧
      (PlotAll fs PATH).1.dedup.length = 3 ∧ (PlotAll fs PATH).2 = none) ∧
    (pyIn "PO" (pathRoot ++ PATH) = false →
      (PlotAll fs PATH).1 =
        [pathRoot ++ PATH ++ "/" ++ "all_" ++ EXP_TAG ++ ".png"] ∧
      (PlotAll fs PATH).2 = none) := by
  constructor
  · intro hPO
    have hw := plotall_po_writes fs PATH df hPO hfile hboth hcav htl
    have hd := dedup_two_one_one
      (write_name_ne (pathRoot ++ PATH) "all_" "icv_" (by decide))
      (write_name_ne (pathRoot ++ PATH) "all_" "tl_" (by decide))
      (write_name_ne (pathRoot ++ PATH) "icv_" "tl_" (by decide))
    simp [hw, hd]
  · intro hPO
    simp [PlotAll, hPO, plotboth_ok fs (pathRoot ++ PATH) df hfile hboth]

/-- C2 witness: the two branches at concrete directories holding the fully
populated log. -/
theorem plotall_output_files_witness :
    ((fun p => if p = pathRoot ++ "1*1路网/In_PPO" ++ "/" ++ "progress.csv"
        then some fullTable else none : FS) |> fun fs =>
      (PlotAll fs "1*1路网/In_PPO").1.dedup =
        [pathRoot ++ "1*1路网/In_PPO" ++ "/" ++ "all_" ++ EXP_TAG ++ ".png",
         pathRoot ++ "1*1路网/In_PPO" ++ "/" ++ "icv_" ++ EXP_TAG ++ ".png",
         pathRoot ++ "1*1路网/In_PPO" ++ "/" ++ "tl_" ++ EXP_TAG ++ ".png"] ∧
      (PlotAll fs "1*1路网/In_PPO").1.dedup.length = 3 ∧
      (PlotAll fs "1*1路网/In_PPO").2 = none) :=
  (plotall_output_files
    (fun p => if p = pathRoot ++ "1*1路网/In_PPO" ++ "/" ++ "progress.csv"
      then some fullTable else none)
    "1*1路网/In_PPO" fullTable (by simp) (by decide) (by decide) (by decide)).1
    (by decide)

/-- C4: a log whose table has the four episode-reward columns, processed for
a directory whose data path lacks the multi-policy marker, produces exactly
one image and no error; and the read phase of `PlotbothRew_Inter` succeeds
exactly when the four columns `episode_reward_max`, `episode_reward_min`,
`episode_reward_mean` and `training_iteration` are present — no other
column is consumed. -/
theorem single_branch_scenario :
    (∀ (fs : FS) (PATH : String) (df : Table),
      pyIn "PO" (pathRoot ++ PATH) = false →
      fs (pathRoot ++ PATH ++ "/" ++ "progress.csv") = some df →
      bothCols df = Except.ok () →
      PlotAll fs PATH =
        ([pathRoot ++ PATH ++ "/" ++ "all_" ++ EXP_TAG ++ ".png"], none)) ∧
    (∀ df : Table, bothCols df = Except.ok () ↔
      ((df.getCol "episode_reward_max").isSome ∧ (df.getCol "episode_reward_min").isSome ∧
       (df.getCol "episode_reward_mean").isSome ∧ (df.getCol "training_iteration").isSome)) := by
  constructor
  · intro fs PATH df hPO hfile hboth
    simp [PlotAll, hPO, plotboth_ok fs (pathRoot ++ PATH) df hfile hboth]
  · intro df
    unfold bothCols getColE
    cases h1 : df.getCol "episode_reward_max" <;>
      cases h2 : df.getCol "episode_reward_min" <;>
        cases h3 : df.getCol "episode_reward_mean" <;>
          cases h4 : df.getCol "training_iteration" <;>
            simp [h1, h2, h3, h4, Bind.bind, Except.instMonad, Except.bind, Except.pure]

/-- C4 witness: the 3-row four-column log (iterations 1,2,3; means
0.1,0.2,0.3) in a non-multi-policy directory yields exactly the single
`all_` image and no error. -/
theorem single_branch_scenario_witness :
    PlotAll
      (fun p => if p = pathRoot ++ "1*1路网/RL_HV" ++ "/" ++ "progress.csv"
        then some specTable else none)
      "1*1路网/RL_HV" =
      ([pathRoot ++ "1*1路网/RL_HV" ++ "/" ++ "all_" ++ EXP_TAG ++ ".png"], none) :=
  single_branch_scenario.1
    (fun p => if p = pathRoot ++ "1*1路网/RL_HV" ++ "/" ++ "progress.csv"
      then some specTable else none)
    "1*1路网/RL_HV" specTable (by decide) (by simp) (by decide)

/-- C5: a missing log file makes `PlotbothRew_Inter` end with the uncaught
missing-file error, and an error raised while handling one batch directory
terminates the whole batch: the final outcome is that error, the writes are
exactly those of the earlier directories plus the partial writes of the
failing one, and no later directory is processed. -/
theorem error_propagation :
    (∀ (fs : FS) (PATH : String), fs (PATH ++ "/" ++ "progress.csv") = none →
      PlotbothRew_Inter fs PATH =
        ([], some (PlotErr.missingFile (PATH ++ "/" ++ "progress.csv")))) ∧
    (∀ (fs : FS) (l1 : List String) (p : String) (l2 : List String)
        (wp : List String) (err : PlotErr),
      (runBatch fs l1).2 = none → PlotAll fs p = (wp, some err) →
      runBatch fs (l1 ++ p :: l2) = ((runBatch fs l1).1 ++ wp, some err)) := by
  constructor
  · intro fs PATH h
    simp [PlotbothRew_Inter, readCsv, h]
  · intro fs l1 p l2 wp err
    induction l1 with
    | nil =>
      intro _ hp
      simp [runBatch, hp]
    | cons a l1 ih =>
      intro h1 hp
      cases hA : PlotAll fs a with
      | mk w e =>
        cases e with
        | some errA => rw [runBatch, hA] at h1; simp at h1
        | none =>
          have h1' : (runBatch fs l1).2 = none := by
            rw [runBatch, hA] at h1
            cases hR : runBatch fs l1 with
            | mk wR eR => rw [hR] at h1; simpa using h1
          have := ih h1' hp
          simp [runBatch, hA, this]

/-- C5 witness: with no files at all, the first directory fails with the
missing-file error, the batch ends with that error, and the second
directory contributes nothing. -/
theorem error_propagation_witness :
    PlotbothRew_Inter (fun _ => none) "d1" =
      ([], some (PlotErr.missingFile ("d1" ++ "/" ++ "progress.csv"))) ∧
    runBatch (fun _ => none) ([] ++ "d1" :: ["d2"]) =
      ((runBatch (fun _ => none) []).1 ++ [],
       some (PlotErr.missingFile (pathRoot ++ "d1" ++ "/" ++ "progress.csv"))) :=
  ⟨error_propagation.1 (fun _ => none) "d1" rfl,
   error_propagation.2 (fun _ => none) [] "d1" ["d2"] []
     (PlotErr.missingFile (pathRoot ++ "d1" ++ "/" ++ "progress.csv")) rfl (by decide)⟩

/-- C8: the plotting batch is exactly the hard-coded 12-element `PATHS`
list in its listed order; the whole script is a function of the modelled
file system alone (no flags or arguments), and each list element is handled
by one `PlotAll` call before the next element is started. -/
theorem batch_surface :
    PATHS =
      ["1*1路网/Co_PPO", "1*1路网/fixedtime_cav", "1*1路网/In_PPO", "1*1路网/RL_HV",
       "1*6路网/Co_PPO", "1*6路网/fixedtime_cav", "1*6路网/In_PPO", "1*6路网/RL_HV",
       "3*4路网/Co_PPO", "3*4路网/fixedtime_cav", "3*4路网/In_PPO", "3*4路网/RL_HV"] ∧
    PATHS.length = 12 ∧
    (∀ fs : FS, mainBatch fs = runBatch fs PATHS) ∧
    (∀ (fs : FS) (p : String) (rest : List String),
      runBatch fs (p :: rest) =
        match PlotAll fs p with
        | (w, some e) => (w, some e)
        | (w, none) => (w ++ (runBatch fs rest).1, (runBatch fs rest).2)) := by
  refine ⟨rfl, rfl, fun _ => rfl, ?_⟩
  intro fs p rest
  cases hA : PlotAll fs p with
  | mk w e => cases e <;> cases hR : runBatch fs rest <;> simp [runBatch, hA, hR]

/-- C8 witness: the batch equations at the empty file system. -/
theorem batch_surface_witness :
    mainBatch (fun _ => none) = runBatch (fun _ => none) PATHS :=
  batch_surface.2.2.1 (fun _ => none)

/-- C9: the multi-policy marker test is the case-sensitive literal `"PO"`
applied to the full data path; since the hard-coded root contains no
`"PO"`, the branch depends only on the relative directory name, and a name
containing only lowercase `"po"` takes the single-plot branch. -/
theorem multi_policy_marker (p : String) :
    pyIn "PO" (pathRoot ++ p) = pyIn "PO" p ∧
    pyIn "PO" pathRoot = false ∧
    pyIn "PO" "fixedtime_po" = false ∧
    pyIn "PO" "In_PPO" = true ∧
    (∀ fs : FS, PlotAll fs "fixedtime_po" = PlotbothRew_Inter fs (pathRoot ++ "fixedtime_po")) := by
  refine ⟨?_, by decide, by decide, by decide, ?_⟩
  · unfold pyIn
    rw [data_of_append]
    have hPO : "PO".data = ['P', 'O'] := rfl
    rw [hPO]
    exact listHasSub_PO_append p.data (by decide)
  · intro fs
    simp [PlotAll, show pyIn "PO" (pathRoot ++ "fixedtime_po") = false from by decide]

/-- C9 witness: the marker facts at the concrete name `"In_PPO"`. -/
theorem multi_policy_marker_witness :
    pyIn "PO" (pathRoot ++ "In_PPO") = pyIn "PO" "In_PPO" ∧
    pyIn "PO" pathRoot = false :=
  ⟨(multi_policy_marker "In_PPO").1, (multi_policy_marker "In_PPO").2.1⟩

/-- C10: in the multi-policy branch four saves are performed but only three
distinct names result: the single save of `PlotbothRew_Inter` and the first
save of `PlotCav_LigthtRew_Inter` both target the `all_` path, which is
therefore written twice, while the `icv_` and `tl_` paths are written once
each. -/
theorem duplicate_all_write (fs : FS) (PATH : String) (df : Table)
    (hPO : pyIn "PO" (pathRoot ++ PATH) = true)
    (hfile : fs (pathRoot ++ PATH ++ "/" ++ "progress.csv") = some df)
    (hboth : bothCols df = Except.ok ()) (hcav : cavCols df = Except.ok ())
    (htl : tlCols df = Except.ok ()) :
    (PlotAll fs PATH).1 =
      [pathRoot ++ PATH ++ "/" ++ "all_" ++ EXP_TAG ++ ".png",
       pathRoot ++ PATH ++ "/" ++ "all_" ++ EXP_TAG ++ ".png",
       pathRoot ++ PATH ++ "/" ++ "icv_" ++ EXP_TAG ++ ".png",
       pathRoot ++ PATH ++ "/" ++ "tl_" ++ EXP_TAG ++ ".png"] ∧
    (PlotAll fs PATH).1.length = 4 ∧
    (PlotAll fs PATH).1.dedup.length = 3 ∧
    (PlotbothRew_Inter fs (pathRoot ++ PATH)).1 =
      [pathRoot ++ PATH ++ "/" ++ "all_" ++ EXP_TAG ++ ".png"] ∧
    (PlotCav_LigthtRew_Inter fs (pathRoot ++ PATH)).1.head? =
      some (pathRoot ++ PATH ++ "/" ++ "all_" ++ EXP_TAG ++ ".png") := by
  have hw := plotall_po_writes fs PATH df hPO hfile hboth hcav htl
  have hd := dedup_two_one_one
    (write_name_ne (pathRoot ++ PATH) "all_" "icv_" (by decide))
    (write_name_ne (pathRoot ++ PATH) "all_" "tl_" (by decide))
    (write_name_ne (pathRoot ++ PATH) "icv_" "tl_" (by decide))
  refine ⟨by simp [hw], by simp [hw], by simp [hw, hd], ?_, ?_⟩
  · simp [plotboth_ok fs (pathRoot ++ PATH) df hfile hboth]
  · simp [plotcav_ok fs (pathRoot ++ PATH) df hfile hboth hcav htl]

/-- C10 witness: the duplicate `all_` write at a concrete multi-policy
directory holding the fully populated log. -/
theorem duplicate_all_write_witness :
    (PlotAll
      (fun p => if p = pathRoot ++ "3*4路网/Co_PPO" ++ "/" ++ "progress.csv"
        then some fullTable else none)
      "3*4路网/Co_PPO").1 =
      [pathRoot ++ "3*4路网/Co_PPO" ++ "/" ++ "all_" ++ EXP_TAG ++ ".png",
       pathRoot ++ "3*4路网/Co_PPO" ++ "/" ++ "all_" ++ EXP_TAG ++ ".png",
       pathRoot ++ "3*4路网/Co_PPO" ++ "/" ++ "icv_" ++ EXP_TAG ++ ".png",
       pathRoot ++ "3*4路网/Co_PPO" ++ "/" ++ "tl_" ++ EXP_TAG ++ ".png"] ∧
    (PlotAll
      (fun p => if p = pathRoot ++ "3*4路网/Co_PPO" ++ "/" ++ "progress.csv"
        then some fullTable else none)
      "3*4路网/Co_PPO").1.dedup.length = 3 :=
  ⟨(duplicate_all_write
      (fun p => if p = pathRoot ++ "3*4路网/Co_PPO" ++ "/" ++ "progress.csv"
        then some fullTable else none)
      "3*4路网/Co_PPO" fullTable (by decide) (by simp) (by decide) (by decide)
      (by decide)).1,
   (duplicate_all_write
      (fun p => if p = pathRoot ++ "3*4路网/Co_PPO" ++ "/" ++ "progress.csv"
        then some fullTable else none)
      "3*4路网/Co_PPO" fullTable (by decide) (by simp) (by decide) (by decide)
      (by decide)).2.2.1⟩
